import Mathlib

/-!
Verification of the `GoogleSheetsManager` wrapper (SheetManager.py).

The wrapper talks to a remote spreadsheet service through an external client
library.  The remote worksheet is modelled as a grid of string cells
(`Grid := List (List String)`); the external library's primitives
(`acell`, `update_acell`, `row_values`, `update`, `append_row`, `clear`,
`get_all_values`) are modelled in namespace `Remote` with their documented
semantics: an unset cell reads as the empty string, `update_acell` extends
the grid as needed, `row_values(1)` returns row 1 in column order,
`update('A1', [row])` overwrites the leading cells of row 1, `append_row`
appends after the last row, `clear` empties the grid.  Cell addresses are
0-based (row, column) coordinates; the "A1" address grammar belongs to the
external library and is out of scope.

The wrapper itself is embedded in namespace `GoogleSheetsManager` over a
`Client` state holding the workbook's worksheets (title, grid), the active
worksheet handle and the recorded sheet name.  Python exceptions are
modelled as an error value: readers return `Except Err α`, mutators return
`Option Err × Client` so that the post-error state is observable (Python
side effects performed before a raise persist).
-/

abbrev Row := List String
abbrev Grid := List Row

namespace Remote

/-- Pad a list with copies of `x` on the right until its length is at least `n`. -/
def padTo (l : List α) (n : Nat) (x : α) : List α :=
  l ++ List.replicate (n - l.length) x

/-- Value of the cell at 0-based (row `r`, column `c`); an absent cell reads
as the empty string, as the remote service has no true unset state. -/
def acell (g : Grid) (r c : Nat) : String :=
  (g.getD r []).getD c ""

/-- Overwrite the cell at (row `r`, column `c`) with `v`, extending the grid
with empty cells as needed (the remote service materialises the cell). -/
def update_acell (g : Grid) (r c : Nat) (v : String) : Grid :=
  let row := (padTo (g.getD r []) (c + 1) "").set c v
  (padTo g (r + 1) []).set r row

/-- Values of row 1 (the first row) in column order; empty grid gives `[]`. -/
def row_values1 (g : Grid) : Row :=
  g.getD 0 []

/-- The effect of `update('A1', [r])`: row 1's leading cells are overwritten
by `r`; cells of row 1 beyond `r`'s length keep their values. -/
def update_row1 (g : Grid) (r : Row) : Grid :=
  match g with
  | [] => [r]
  | r0 :: rest => (r ++ r0.drop r.length) :: rest

/-- `append_row`: the new row is appended after the last row of the table. -/
def append_row (g : Grid) (r : Row) : Grid :=
  g ++ [r]

/-- `get_all_values`: full table contents as an ordered sequence of rows. -/
def get_all_values (g : Grid) : Grid :=
  g

/-- `clear`: every cell is removed, leaving an empty grid. -/
def clearG : Grid :=
  []

theorem getD_padTo (l : List α) (n i : Nat) (x : α) :
    (padTo l n x).getD i x = l.getD i x := by
  induction l generalizing n i with
  | nil =>
    simp only [padTo, List.nil_append, List.length_nil, Nat.sub_zero, List.getD_nil]
    by_cases h : i < n
    · simp [List.getD, List.getElem?_replicate, h]
    · simp [List.getD, List.getElem?_replicate, h]
  | cons a t ih =>
    have hstep : padTo (a :: t) n x = a :: padTo t (n - 1) x := by
      simp only [padTo, List.length_cons, List.cons_append, List.cons.injEq, true_and]
      have : n - (t.length + 1) = n - 1 - t.length := by omega
      rw [this]
    rw [hstep]
    cases i with
    | zero => simp [List.getD_cons_zero]
    | succ j =>
      simp only [List.getD_cons_succ]
      exact ih _ _

theorem length_padTo (l : List α) (n : Nat) (x : α) :
    (padTo l n x).length = max l.length n := by
  simp only [padTo, List.length_append, List.length_replicate]
  omega

theorem getD_set_self (l : List α) (i : Nat) (a x : α) (h : i < l.length) :
    (l.set i a).getD i x = a := by
  simp [List.getD, List.getElem?_set_self, h]

theorem getD_set_ne (l : List α) (i j : Nat) (a x : α) (h : j ≠ i) :
    (l.set i a).getD j x = l.getD j x := by
  simp [List.getD, List.getElem?_set_ne (by omega : i ≠ j)]

/-- Key cell lemma: reading after a write sees the written value at the
written address and the old value everywhere else. -/
theorem acell_update_acell (g : Grid) (r c r' c' : Nat) (v : String) :
    acell (update_acell g r c v) r' c' =
      if r' = r ∧ c' = c then v else acell g r' c' := by
  unfold acell update_acell
  by_cases hr : r' = r
  · subst hr
    have hlen : r' < (padTo g (r' + 1) ([] : Row)).length := by
      rw [length_padTo]; omega
    rw [getD_set_self _ _ _ _ hlen]
    by_cases hc : c' = c
    · subst hc
      have hlen2 : c' < (padTo (g.getD r' []) (c' + 1) "").length := by
        rw [length_padTo]; omega
      rw [getD_set_self _ _ _ _ hlen2]
      simp
    · rw [getD_set_ne _ _ _ _ _ hc, getD_padTo]
      simp [hc]
  · rw [getD_set_ne _ _ _ _ _ hr, getD_padTo]
    simp [hr]

end Remote

/-- The logical error kinds raised by the wrapper (all are `ValueError` in
the Python source; distinguished here by their message/meaning). -/
inductive Err where
  | NoTableSelected
  | TableNotFound
  | DuplicateHeader
  | ValueCountMismatch
  deriving DecidableEq, Repr

/-- The client state of `GoogleSheetsManager`: the opened workbook's
worksheets (title paired with grid contents), the active worksheet handle
(`self._worksheet`, holding the selected sheet's contents; `none` when no
worksheet is set) and the recorded sheet name (`self.sheet_name`). -/
structure Client where
  spreadsheet : List (String × Grid)
  worksheet : Option Grid
  sheet_name : Option String
  deriving DecidableEq, Repr

namespace GoogleSheetsManager

/-- `set_sheet`: look the worksheet up by exact title; on success record its
title and the handle; on failure raise `TableNotFound` ("Sheet with name
... not found") leaving the state unchanged. -/
def set_sheet (c : Client) (name : String) : Option Err × Client :=
  match c.spreadsheet.find? (fun p => p.1 == name) with
  | some p => (none, { c with sheet_name := some p.1, worksheet := some p.2 })
  | none => (some .TableNotFound, c)

/-- `get_sheet`: the active worksheet handle, or `NoTableSelected`. -/
def get_sheet (c : Client) : Except Err Grid :=
  match c.worksheet with
  | none => .error .NoTableSelected
  | some g => .ok g

/-- `get_sheet_name`: the recorded sheet name, or `NoTableSelected`. -/
def get_sheet_name (c : Client) : Except Err String :=
  match c.sheet_name with
  | none => .error .NoTableSelected
  | some n => .ok n

/-- `get_all_sheets`: the titles of every worksheet of the workbook, in
listing order. -/
def get_all_sheets (c : Client) : List String :=
  c.spreadsheet.map (fun p => p.1)

/-- Modelled from the spec: `tableExists(name)` belongs to the client's
table-discovery API (spec §4.1.1) but is absent from the single revision of
the class present under src (the repository has four revisions per the
spec); faithful to the spec's words "true iff `name` appears in
`listTables()`". -/
def table_exists (c : Client) (name : String) : Bool :=
  (get_all_sheets c).contains name

/-- `get_cell`: read one cell of the active worksheet. -/
def get_cell (c : Client) (r col : Nat) : Except Err String :=
  match c.worksheet with
  | none => .error .NoTableSelected
  | some g => .ok (Remote.acell g r col)

/-- `update_cell`: overwrite one cell of the active worksheet. -/
def update_cell (c : Client) (r col : Nat) (v : String) : Option Err × Client :=
  match c.worksheet with
  | none => (some .NoTableSelected, c)
  | some g => (none, { c with worksheet := some (Remote.update_acell g r col v) })

/-- `del_cell`: set one cell of the active worksheet to the empty string. -/
def del_cell (c : Client) (r col : Nat) : Option Err × Client :=
  match c.worksheet with
  | none => (some .NoTableSelected, c)
  | some g => (none, { c with worksheet := some (Remote.update_acell g r col "") })

/-- `get_range`: delegate the range read to the external library call
`worksheet.get(cell_range)`, modelled by the parameter `remote_get`. -/
def get_range (remote_get : Grid → String → Grid) (c : Client)
    (cell_range : String) : Except Err Grid :=
  match c.worksheet with
  | none => .error .NoTableSelected
  | some g => .ok (remote_get g cell_range)

/-- `update_range`: delegate the block write to the external library call
`worksheet.update(cell_range, values)`, modelled by `remote_update`. -/
def update_range (remote_update : Grid → String → Grid → Grid) (c : Client)
    (cell_range : String) (values : Grid) : Option Err × Client :=
  match c.worksheet with
  | none => (some .NoTableSelected, c)
  | some g => (none, { c with worksheet := some (remote_update g cell_range values) })

/-- `del_range`: delegate the range clear to the external library call
`worksheet.batch_clear([cell_range])`, modelled by `remote_clear`. -/
def del_range (remote_clear : Grid → String → Grid) (c : Client)
    (cell_range : String) : Option Err × Client :=
  match c.worksheet with
  | none => (some .NoTableSelected, c)
  | some g => (none, { c with worksheet := some (remote_clear g cell_range) })

/-- `get_all_values`: full contents of the active worksheet. -/
def get_all_values (c : Client) : Except Err Grid :=
  match c.worksheet with
  | none => .error .NoTableSelected
  | some g => .ok (Remote.get_all_values g)

/-- `clear`: remove all values from the active worksheet. -/
def clear (c : Client) : Option Err × Client :=
  match c.worksheet with
  | none => (some .NoTableSelected, c)
  | some _ => (none, { c with worksheet := some Remote.clearG })

/-- `move_to`: read the source cell, write its value to the target cell,
then delete the source cell — composed from `get_cell`, `update_cell` and
`del_cell` exactly as in the source. -/
def move_to (c : Client) (r1 c1 r2 c2 : Nat) : Option Err × Client :=
  match get_cell c r1 c1 with
  | .error e => (some e, c)
  | .ok v =>
    match update_cell c r2 c2 v with
    | (some e, c') => (some e, c')
    | (none, c') => del_cell c' r1 c1

/-- `copy_to`: read the source cell and write its value to the target cell,
leaving the source untouched. -/
def copy_to (c : Client) (r1 c1 r2 c2 : Nat) : Option Err × Client :=
  match get_cell c r1 c1 with
  | .error e => (some e, c)
  | .ok v => update_cell c r2 c2 v

/-- `db_get_headers`: the values of row 1 of the active worksheet. -/
def db_get_headers (c : Client) : Except Err Row :=
  match c.worksheet with
  | none => .error .NoTableSelected
  | some g => .ok (Remote.row_values1 g)

/-- Grid-level body of `db_add_header`: read the headers from row 1, raise
`DuplicateHeader` if the name is already present, otherwise write the
extended list back with `update('A1', [headers])`. -/
def db_add_header_g (g : Grid) (header : String) : Option Err × Grid :=
  let headers := Remote.row_values1 g
  if header ∈ headers then (some .DuplicateHeader, g)
  else (none, Remote.update_row1 g (headers ++ [header]))

/-- `db_add_header` at the client level: `NoTableSelected` check, then the
grid-level body on the active worksheet. -/
def db_add_header (c : Client) (header : String) : Option Err × Client :=
  match c.worksheet with
  | none => (some .NoTableSelected, c)
  | some g =>
    match db_add_header_g g header with
    | (some e, g') => (some e, { c with worksheet := some g' })
    | (none, g') => (none, { c with worksheet := some g' })

/-- The `for header in headers: self.db_add_header(header)` loop shared by
`db_add_headers` and `db_create`: stops at the first failure, keeping the
side effects performed so far. -/
def addHeaderLoop (g : Grid) (headers : List String) : Option Err × Grid :=
  match headers with
  | [] => (none, g)
  | h :: t =>
    match db_add_header_g g h with
    | (some e, g') => (some e, g')
    | (none, g') => addHeaderLoop g' t

/-- `db_add_headers`: add each header in order via `db_add_header`, stopping
at the first failure (partial application possible). -/
def db_add_headers (c : Client) (headers : List String) : Option Err × Client :=
  match c.worksheet with
  | none => (some .NoTableSelected, c)
  | some g =>
    match addHeaderLoop g headers with
    | (some e, g') => (some e, { c with worksheet := some g' })
    | (none, g') => (none, { c with worksheet := some g' })

/-- `db_create`: clear the sheet, add the "ID" header, then add each given
header in order (the `if headers:` guard is vacuous for `none` and for the
empty list, over which the loop does nothing). -/
def db_create (c : Client) (headers : Option (List String)) : Option Err × Client :=
  match c.worksheet with
  | none => (some .NoTableSelected, c)
  | some _ =>
    match db_add_header_g Remote.clearG "ID" with
    | (some e, g') => (some e, { c with worksheet := some g' })
    | (none, g') =>
      match addHeaderLoop g' (headers.getD []) with
      | (some e, g'') => (some e, { c with worksheet := some g'' })
      | (none, g'') => (none, { c with worksheet := some g'' })

/-- `db_add_value`: read the headers; raise `ValueCountMismatch` unless
`len(values) == len(headers) - 1` (Python subtraction, hence the `Int`
cast: empty headers demand −1 values, which always fails); otherwise
insert `len(get_all_values())` as the ID (the Python integer round-trips
through the remote service as its decimal string) and append the row. -/
def db_add_value (c : Client) (values : List String) : Option Err × Client :=
  match c.worksheet with
  | none => (some .NoTableSelected, c)
  | some g =>
    let headers := Remote.row_values1 g
    if (values.length : Int) ≠ (headers.length : Int) - 1 then
      (some .ValueCountMismatch, c)
    else
      let next_row := (Remote.get_all_values g).length + 1
      (none, { c with
        worksheet := some (Remote.append_row g (toString (next_row - 1) :: values)) })

/-- `db_get_all_values`: every row after the header row, ID column
included. -/
def db_get_all_values (c : Client) : Except Err Grid :=
  match c.worksheet with
  | none => .error .NoTableSelected
  | some g => .ok ((Remote.get_all_values g).drop 1)

end GoogleSheetsManager

namespace Remote

theorem row_values1_update_row1_append (g : Grid) (l : Row) :
    row_values1 (update_row1 g (row_values1 g ++ l)) = row_values1 g ++ l := by
  cases g with
  | nil => simp [row_values1, update_row1]
  | cons r0 t =>
    simp only [row_values1, update_row1, List.getD_cons_zero]
    rw [List.drop_eq_nil_of_le (by simp), List.append_nil]

end Remote

/-- Replacing a `Client`'s worksheet by the value it already holds is the
identity. -/
theorem Client.update_worksheet_self (c : Client) (g : Grid)
    (hw : c.worksheet = some g) : { c with worksheet := some g } = c := by
  cases c with
  | mk s w n =>
    simp only at hw
    subst hw
    rfl

namespace GoogleSheetsManager

theorem db_add_header_g_fresh (acc : Row) (b : String) (hb : b ∉ acc) :
    db_add_header_g [acc] b = (none, [acc ++ [b]]) := by
  simp only [db_add_header_g, Remote.row_values1, List.getD_cons_zero,
    Remote.update_row1, hb, if_false]
  rw [List.drop_eq_nil_of_le (by simp), List.append_nil]

theorem db_add_header_g_dup (acc : Row) (b : String) (hb : b ∈ acc) :
    db_add_header_g [acc] b = (some .DuplicateHeader, [acc]) := by
  simp [db_add_header_g, Remote.row_values1, hb]

/-- Running the header loop over a block of pairwise-fresh names just
extends the single header row by that block. -/
theorem addHeaderLoop_append (p : List String) : ∀ acc l : List String,
    (acc ++ p).Nodup →
    addHeaderLoop [acc] (p ++ l) = addHeaderLoop [acc ++ p] l := by
  induction p with
  | nil => intro acc l _; simp
  | cons b t ih =>
    intro acc l hnd
    have hb : b ∉ acc := by
      rw [List.nodup_append] at hnd
      intro hmem
      exact hnd.2.2 hmem (List.mem_cons_self b t)
    have hstep : addHeaderLoop [acc] ((b :: t) ++ l) =
        addHeaderLoop [acc ++ [b]] (t ++ l) := by
      simp only [List.cons_append, addHeaderLoop, db_add_header_g_fresh acc b hb,
        List.append_eq]
    rw [hstep, ih (acc ++ [b]) l (by rwa [List.append_cons] at hnd)]
    rw [List.append_cons acc b t]

/-- C1: on a selected table whose header row has `k` columns and whose grid
holds `n` total rows (header included), `db_add_value` with `k − 1` values
appends exactly one new row: the computed ID (which equals `n`) followed by
the given values in order. -/
theorem claim_C1_db_add_value_appends (c : Client) (g : Grid) (k : Nat)
    (values : List String) (hw : c.worksheet = some g)
    (hk : (Remote.row_values1 g).length = k)
    (hv : (values.length : Int) = (k : Int) - 1) :
    db_add_value c values =
      (none, { c with worksheet := some (g ++ [toString g.length :: values]) }) := by
  have hok : ¬ ((values.length : Int) ≠ ((Remote.row_values1 g).length : Int) - 1) := by
    rw [hk]; omega
  simp [db_add_value, hw, hok, Remote.get_all_values, Remote.append_row]

/-- C1 witness: the spec's running example, one append onto
`initDatabase(["Name","Age"])`'s result. -/
theorem claim_C1_db_add_value_appends_witness :
    (⟨[], some [["ID", "Name", "Age"]], some "db"⟩ : Client).worksheet =
        some [["ID", "Name", "Age"]] ∧
      (Remote.row_values1 [["ID", "Name", "Age"]]).length = 3 ∧
      ((["Alice", "30"] : List String).length : Int) = (3 : Int) - 1 ∧
      db_add_value ⟨[], some [["ID", "Name", "Age"]], some "db"⟩ ["Alice", "30"] =
        (none, ⟨[], some [["ID", "Name", "Age"], ["1", "Alice", "30"]], some "db"⟩) :=
  ⟨rfl, rfl, by decide,
    claim_C1_db_add_value_appends _ [["ID", "Name", "Age"]] 3 _ rfl rfl (by decide)⟩

/-- C2: `db_create` with the empty header list leaves any selected table
with header row exactly `["ID"]` and no data rows. -/
theorem claim_C2_db_create_empty (c : Client) (g : Grid)
    (hw : c.worksheet = some g) :
    (db_create c (some [])).1 = none ∧
      db_get_headers (db_create c (some [])).2 = .ok ["ID"] ∧
      db_get_all_values (db_create c (some [])).2 = .ok [] := by
  simp [db_create, hw, db_add_header_g, Remote.row_values1, Remote.update_row1,
    Remote.clearG, addHeaderLoop, db_get_headers, db_get_all_values,
    Remote.get_all_values]

/-- C2 witness: a table with prior contents is reset to the bare ID
header. -/
theorem claim_C2_db_create_empty_witness :
    (⟨[], some [["a", "b"], ["1", "2"]], some "t"⟩ : Client).worksheet =
        some [["a", "b"], ["1", "2"]] ∧
      (db_create ⟨[], some [["a", "b"], ["1", "2"]], some "t"⟩ (some [])).1 = none ∧
      db_get_headers (db_create ⟨[], some [["a", "b"], ["1", "2"]], some "t"⟩
        (some [])).2 = .ok ["ID"] ∧
      db_get_all_values (db_create ⟨[], some [["a", "b"], ["1", "2"]], some "t"⟩
        (some [])).2 = .ok [] :=
  ⟨rfl, claim_C2_db_create_empty _ [["a", "b"], ["1", "2"]] rfl⟩

/-- C3: on a selected table with duplicate-free header row `H`,
`db_add_header h` for `h ∉ H` succeeds and leaves the headers `H ++ [h]`;
for `h ∈ H` it raises `DuplicateHeader` and leaves the state unchanged. -/
theorem claim_C3_db_add_header (c : Client) (g : Grid) (H : Row) (h : String)
    (hw : c.worksheet = some g) (hH : Remote.row_values1 g = H)
    (_hnd : H.Nodup) :
    (h ∉ H →
      (db_add_header c h).1 = none ∧
        db_get_headers (db_add_header c h).2 = .ok (H ++ [h])) ∧
    (h ∈ H → db_add_header c h = (some .DuplicateHeader, c)) := by
  constructor
  · intro hmem
    have hmem' : h ∉ Remote.row_values1 g := by rw [hH]; exact hmem
    have hrow : Remote.row_values1 (Remote.update_row1 g (H ++ [h])) = H ++ [h] := by
      rw [← hH]; exact Remote.row_values1_update_row1_append g [h]
    simp [db_add_header, hw, db_add_header_g, hmem', hmem, db_get_headers, hH, hrow]
  · intro hmem
    have hmem' : h ∈ Remote.row_values1 g := by rw [hH]; exact hmem
    simp only [db_add_header, hw, db_add_header_g, hmem', if_true]
    rw [Client.update_worksheet_self c g hw]

/-- C3 witness: appending a fresh header and rejecting a duplicate on the
header row `["ID", "Name"]`. -/
theorem claim_C3_db_add_header_witness :
    (⟨[], some [["ID", "Name"]], none⟩ : Client).worksheet = some [["ID", "Name"]] ∧
      Remote.row_values1 [["ID", "Name"]] = ["ID", "Name"] ∧
      (["ID", "Name"] : Row).Nodup ∧
      (("Age" ∉ (["ID", "Name"] : Row)) →
        (db_add_header ⟨[], some [["ID", "Name"]], none⟩ "Age").1 = none ∧
          db_get_headers (db_add_header ⟨[], some [["ID", "Name"]], none⟩ "Age").2 =
            .ok ["ID", "Name", "Age"]) ∧
      (("Name" ∈ (["ID", "Name"] : Row)) →
        db_add_header ⟨[], some [["ID", "Name"]], none⟩ "Name" =
          (some .DuplicateHeader, ⟨[], some [["ID", "Name"]], none⟩)) :=
  ⟨rfl, rfl, by decide,
    (claim_C3_db_add_header _ [["ID", "Name"]] ["ID", "Name"] "Age" rfl rfl
      (by decide)).1,
    (claim_C3_db_add_header _ [["ID", "Name"]] ["ID", "Name"] "Name" rfl rfl
      (by decide)).2⟩

/-- C4: `db_add_value` with a value count different from header count minus
one raises `ValueCountMismatch` and performs no write: the client state is
returned exactly as it was. -/
theorem claim_C4_db_add_value_mismatch (c : Client) (g : Grid)
    (values : List String) (hw : c.worksheet = some g)
    (hv : (values.length : Int) ≠ ((Remote.row_values1 g).length : Int) - 1) :
    db_add_value c values = (some .ValueCountMismatch, c) := by
  simp [db_add_value, hw, hv]

/-- C4 witness: two values against a three-column header row (which expects
two values per row — here we pass three). -/
theorem claim_C4_db_add_value_mismatch_witness :
    (⟨[], some [["ID", "Name", "Age"]], none⟩ : Client).worksheet =
        some [["ID", "Name", "Age"]] ∧
      ((["a", "b", "c"] : List String).length : Int) ≠
        ((Remote.row_values1 [["ID", "Name", "Age"]]).length : Int) - 1 ∧
      db_add_value ⟨[], some [["ID", "Name", "Age"]], none⟩ ["a", "b", "c"] =
        (some .ValueCountMismatch, ⟨[], some [["ID", "Name", "Age"]], none⟩) :=
  ⟨rfl, by decide,
    claim_C4_db_add_value_mismatch _ [["ID", "Name", "Age"]] _ rfl (by decide)⟩

/-- C5: selecting a table whose name is not among the workbook's table
names raises `TableNotFound` and preserves both the active-table handle and
the recorded active-table name. -/
theorem claim_C5_set_sheet_not_found (c : Client) (t : String)
    (h : t ∉ get_all_sheets c) :
    set_sheet c t = (some .TableNotFound, c) ∧
      (set_sheet c t).2.worksheet = c.worksheet ∧
      (set_sheet c t).2.sheet_name = c.sheet_name := by
  have hfind : c.spreadsheet.find? (fun p => p.1 == t) = none := by
    apply List.find?_eq_none.mpr
    intro x hx
    simp only [beq_iff_eq]
    intro hxt
    exact h (by simpa [get_all_sheets, hxt] using List.mem_map_of_mem Prod.fst hx)
  refine ⟨?_, ?_, ?_⟩ <;> simp [set_sheet, hfind]

/-- C5 witness: a missing name in a two-table workbook, with a prior
selection in place. -/
theorem claim_C5_set_sheet_not_found_witness :
    "Nope" ∉ get_all_sheets ⟨[("A", []), ("B", [["x"]])], some [["x"]], some "B"⟩ ∧
      set_sheet ⟨[("A", []), ("B", [["x"]])], some [["x"]], some "B"⟩ "Nope" =
        (some .TableNotFound, ⟨[("A", []), ("B", [["x"]])], some [["x"]], some "B"⟩) :=
  ⟨by decide,
    (claim_C5_set_sheet_not_found ⟨[("A", []), ("B", [["x"]])], some [["x"]], some "B"⟩
      "Nope" (by decide)).1⟩

/-- C6: with no table selected, every cell, range and database-style
operation raises `NoTableSelected` and changes nothing. -/
theorem claim_C6_no_table_selected (c : Client) (r col r2 c2 : Nat) (v : String)
    (remote_get : Grid → String → Grid)
    (remote_update : Grid → String → Grid → Grid)
    (remote_clear : Grid → String → Grid) (rng : String) (vals : Grid)
    (h : String) (hs : List String) (ohs : Option (List String))
    (values : List String) (hw : c.worksheet = none) :
    get_cell c r col = .error .NoTableSelected ∧
      update_cell c r col v = (some .NoTableSelected, c) ∧
      del_cell c r col = (some .NoTableSelected, c) ∧
      move_to c r col r2 c2 = (some .NoTableSelected, c) ∧
      copy_to c r col r2 c2 = (some .NoTableSelected, c) ∧
      get_range remote_get c rng = .error .NoTableSelected ∧
      update_range remote_update c rng vals = (some .NoTableSelected, c) ∧
      del_range remote_clear c rng = (some .NoTableSelected, c) ∧
      get_all_values c = .error .NoTableSelected ∧
      clear c = (some .NoTableSelected, c) ∧
      db_get_headers c = .error .NoTableSelected ∧
      db_add_header c h = (some .NoTableSelected, c) ∧
      db_add_headers c hs = (some .NoTableSelected, c) ∧
      db_create c ohs = (some .NoTableSelected, c) ∧
      db_add_value c values = (some .NoTableSelected, c) ∧
      db_get_all_values c = .error .NoTableSelected := by
  refine ⟨?_, ?_, ?_, ?_, ?_, ?_, ?_, ?_, ?_, ?_, ?_, ?_, ?_, ?_, ?_, ?_⟩
  · simp [get_cell, hw]
  · simp [update_cell, hw]
  · simp [del_cell, hw]
  · simp [move_to, get_cell, hw]
  · simp [copy_to, get_cell, hw]
  · simp [get_range, hw]
  · simp [update_range, hw]
  · simp [del_range, hw]
  · simp [get_all_values, hw]
  · simp [clear, hw]
  · simp [db_get_headers, hw]
  · simp [db_add_header, hw]
  · simp [db_add_headers, hw]
  · simp [db_create, hw]
  · simp [db_add_value, hw]
  · simp [db_get_all_values, hw]

/-- C6 witness: an unselected client with concrete arguments for every
operation. -/
theorem claim_C6_no_table_selected_witness :
    (⟨[("A", [["x"]])], none, none⟩ : Client).worksheet = none ∧
      get_cell ⟨[("A", [["x"]])], none, none⟩ 0 0 = .error .NoTableSelected ∧
      update_cell ⟨[("A", [["x"]])], none, none⟩ 0 0 "v" =
        (some .NoTableSelected, ⟨[("A", [["x"]])], none, none⟩) ∧
      del_cell ⟨[("A", [["x"]])], none, none⟩ 0 0 =
        (some .NoTableSelected, ⟨[("A", [["x"]])], none, none⟩) ∧
      move_to ⟨[("A", [["x"]])], none, none⟩ 0 0 1 1 =
        (some .NoTableSelected, ⟨[("A", [["x"]])], none, none⟩) ∧
      copy_to ⟨[("A", [["x"]])], none, none⟩ 0 0 1 1 =
        (some .NoTableSelected, ⟨[("A", [["x"]])], none, none⟩) ∧
      get_range (fun g _ => g) ⟨[("A", [["x"]])], none, none⟩ "A1:B2" =
        .error .NoTableSelected ∧
      update_range (fun g _ _ => g) ⟨[("A", [["x"]])], none, none⟩ "A1:B2" [["y"]] =
        (some .NoTableSelected, ⟨[("A", [["x"]])], none, none⟩) ∧
      del_range (fun g _ => g) ⟨[("A", [["x"]])], none, none⟩ "A1:B2" =
        (some .NoTableSelected, ⟨[("A", [["x"]])], none, none⟩) ∧
      get_all_values ⟨[("A", [["x"]])], none, none⟩ = .error .NoTableSelected ∧
      clear ⟨[("A", [["x"]])], none, none⟩ =
        (some .NoTableSelected, ⟨[("A", [["x"]])], none, none⟩) ∧
      db_get_headers ⟨[("A", [["x"]])], none, none⟩ = .error .NoTableSelected ∧
      db_add_header ⟨[("A", [["x"]])], none, none⟩ "H" =
        (some .NoTableSelected, ⟨[("A", [["x"]])], none, none⟩) ∧
      db_add_headers ⟨[("A", [["x"]])], none, none⟩ ["H", "K"] =
        (some .NoTableSelected, ⟨[("A", [["x"]])], none, none⟩) ∧
      db_create ⟨[("A", [["x"]])], none, none⟩ (some ["H"]) =
        (some .NoTableSelected, ⟨[("A", [["x"]])], none, none⟩) ∧
      db_add_value ⟨[("A", [["x"]])], none, none⟩ ["1"] =
        (some .NoTableSelected, ⟨[("A", [["x"]])], none, none⟩) ∧
      db_get_all_values ⟨[("A", [["x"]])], none, none⟩ = .error .NoTableSelected :=
  ⟨rfl,
    claim_C6_no_table_selected ⟨[("A", [["x"]])], none, none⟩ 0 0 1 1 "v"
      (fun g _ => g) (fun g _ _ => g) (fun g _ => g) "A1:B2" [["y"]] "H"
      ["H", "K"] (some ["H"]) ["1"] rfl⟩

/-- C7: on a selected table, moving a cell holding `v` to a distinct target
address succeeds and leaves the target holding `v`, the source holding the
empty string, and every other cell unchanged. -/
theorem claim_C7_move_to (c : Client) (g : Grid) (r1 c1 r2 c2 : Nat)
    (v : String) (hw : c.worksheet = some g) (hne : (r1, c1) ≠ (r2, c2))
    (hv : Remote.acell g r1 c1 = v) :
    (move_to c r1 c1 r2 c2).1 = none ∧
      get_cell (move_to c r1 c1 r2 c2).2 r2 c2 = .ok v ∧
      get_cell (move_to c r1 c1 r2 c2).2 r1 c1 = .ok "" ∧
      ∀ r col, (r, col) ≠ (r1, c1) → (r, col) ≠ (r2, c2) →
        get_cell (move_to c r1 c1 r2 c2).2 r col = get_cell c r col := by
  have hne' : ¬ (r2 = r1 ∧ c2 = c1) := by
    intro hcon
    exact hne (by rw [hcon.1, hcon.2])
  have hmv : move_to c r1 c1 r2 c2 =
      (none,
        { c with
          worksheet :=
            some (Remote.update_acell (Remote.update_acell g r2 c2 v) r1 c1 "") }) := by
    simp [move_to, get_cell, update_cell, del_cell, hw, hv]
  refine ⟨by rw [hmv], ?_, ?_, ?_⟩
  · rw [hmv]
    simp [get_cell, Remote.acell_update_acell, hne']
  · rw [hmv]
    simp [get_cell, Remote.acell_update_acell]
  · intro r col hr1 hr2
    have hr1' : ¬ (r = r1 ∧ col = c1) := by
      intro hcon
      exact hr1 (by rw [hcon.1, hcon.2])
    have hr2' : ¬ (r = r2 ∧ col = c2) := by
      intro hcon
      exact hr2 (by rw [hcon.1, hcon.2])
    rw [hmv]
    simp [get_cell, hw, Remote.acell_update_acell, hr1', hr2']

/-- C7 witness: the spec's example of moving A1's value "x" to B1. -/
theorem claim_C7_move_to_witness :
    (⟨[], some [["x"]], some "t"⟩ : Client).worksheet = some [["x"]] ∧
      ((0, 0) : Nat × Nat) ≠ (0, 1) ∧
      Remote.acell [["x"]] 0 0 = "x" ∧
      ((move_to ⟨[], some [["x"]], some "t"⟩ 0 0 0 1).1 = none ∧
        get_cell (move_to ⟨[], some [["x"]], some "t"⟩ 0 0 0 1).2 0 1 = .ok "x" ∧
        get_cell (move_to ⟨[], some [["x"]], some "t"⟩ 0 0 0 1).2 0 0 = .ok "" ∧
        ∀ r col, (r, col) ≠ ((0 : Nat), (0 : Nat)) → (r, col) ≠ ((0 : Nat), (1 : Nat)) →
          get_cell (move_to ⟨[], some [["x"]], some "t"⟩ 0 0 0 1).2 r col =
            get_cell ⟨[], some [["x"]], some "t"⟩ r col) :=
  ⟨rfl, by decide, rfl,
    claim_C7_move_to ⟨[], some [["x"]], some "t"⟩ [["x"]] 0 0 0 1 "x" rfl
      (by decide) rfl⟩

/-- C8: `table_exists(name)` is true exactly when `name` appears in the
workbook's table listing. -/
theorem claim_C8_table_exists (c : Client) (name : String) :
    table_exists c name = true ↔ name ∈ get_all_sheets c := by
  simp [table_exists, List.elem_iff]

/-- C9: on a selected table, a self-move reads the cell, writes the value
back, then deletes the cell: the call succeeds, the cell afterwards holds
the empty string, and the whole observable state agrees with a plain
`del_cell` of that address — the value is lost, not preserved. -/
theorem claim_C9_move_to_self (c : Client) (g : Grid) (r1 c1 : Nat)
    (hw : c.worksheet = some g) :
    (move_to c r1 c1 r1 c1).1 = none ∧
      get_cell (move_to c r1 c1 r1 c1).2 r1 c1 = .ok "" ∧
      ∀ r col, get_cell (move_to c r1 c1 r1 c1).2 r col =
        get_cell (del_cell c r1 c1).2 r col := by
  have hmv : move_to c r1 c1 r1 c1 =
      (none,
        { c with
          worksheet :=
            some (Remote.update_acell
              (Remote.update_acell g r1 c1 (Remote.acell g r1 c1)) r1 c1 "") }) := by
    simp [move_to, get_cell, update_cell, del_cell, hw]
  refine ⟨by rw [hmv], ?_, ?_⟩
  · rw [hmv]
    simp [get_cell, Remote.acell_update_acell]
  · intro r col
    rw [hmv]
    by_cases hrc : r = r1 ∧ col = c1
    · simp [get_cell, del_cell, hw, Remote.acell_update_acell, hrc]
    · simp [get_cell, del_cell, hw, Remote.acell_update_acell, hrc]

/-- C9 witness: a self-move of A1 holding "x" erases the value, matching
`del_cell`. -/
theorem claim_C9_move_to_self_witness :
    (⟨[], some [["x"]], some "t"⟩ : Client).worksheet = some [["x"]] ∧
      ((move_to ⟨[], some [["x"]], some "t"⟩ 0 0 0 0).1 = none ∧
        get_cell (move_to ⟨[], some [["x"]], some "t"⟩ 0 0 0 0).2 0 0 = .ok "" ∧
        ∀ r col, get_cell (move_to ⟨[], some [["x"]], some "t"⟩ 0 0 0 0).2 r col =
          get_cell (del_cell ⟨[], some [["x"]], some "t"⟩ 0 0).2 r col) :=
  ⟨rfl, claim_C9_move_to_self ⟨[], some [["x"]], some "t"⟩ [["x"]] 0 0 rfl⟩

/-- C10: `db_create` with a header list containing "ID" or a repeated name
clears the table and writes the headers preceding the first offending name
before raising `DuplicateHeader`: the table ends up cleared with the
partial header row `"ID" :: p`, regardless of its prior contents. -/
theorem claim_C10_db_create_partial (c : Client) (g : Grid)
    (p rest : List String) (bad : String) (hw : c.worksheet = some g)
    (hid : "ID" ∉ p) (hnd : p.Nodup) (hbad : bad = "ID" ∨ bad ∈ p) :
    db_create c (some (p ++ bad :: rest)) =
      (some .DuplicateHeader, { c with worksheet := some [("ID" :: p)] }) := by
  have hfirst : db_add_header_g Remote.clearG "ID" = (none, [["ID"]]) := by
    simp [db_add_header_g, Remote.clearG, Remote.row_values1, Remote.update_row1]
  have hnodup : ((["ID"] : List String) ++ p).Nodup := by
    rw [List.nodup_append]
    exact ⟨List.nodup_singleton "ID", hnd, by simpa using hid⟩
  have hloop : addHeaderLoop [["ID"]] (p ++ bad :: rest) =
      addHeaderLoop [("ID" :: p)] (bad :: rest) := by
    simpa using addHeaderLoop_append p ["ID"] (bad :: rest) hnodup
  have hbad' : bad ∈ "ID" :: p := by
    cases hbad with
    | inl hl => rw [hl]; exact List.mem_cons_self _ _
    | inr hr => exact List.mem_cons_of_mem _ hr
  have hstop : addHeaderLoop [("ID" :: p)] (bad :: rest) =
      (some .DuplicateHeader, [("ID" :: p)]) := by
    simp only [addHeaderLoop, db_add_header_g_dup ("ID" :: p) bad hbad']
  simp [db_create, hw, hfirst, hloop, hstop]

/-- C10 witness: `db_create` over `["Name", "ID", "Extra"]` on a table with
prior data stops at the duplicate "ID", leaving only the partial header row
`["ID", "Name"]`. -/
theorem claim_C10_db_create_partial_witness :
    (⟨[], some [["a", "b"], ["1", "2"]], none⟩ : Client).worksheet =
        some [["a", "b"], ["1", "2"]] ∧
      "ID" ∉ (["Name"] : List String) ∧
      (["Name"] : List String).Nodup ∧
      ("ID" = "ID" ∨ "ID" ∈ (["Name"] : List String)) ∧
      db_create ⟨[], some [["a", "b"], ["1", "2"]], none⟩
          (some (["Name"] ++ "ID" :: ["Extra"])) =
        (some .DuplicateHeader, ⟨[], some [["ID", "Name"]], none⟩) :=
  ⟨rfl, by decide, by decide, Or.inl rfl,
    claim_C10_db_create_partial ⟨[], some [["a", "b"], ["1", "2"]], none⟩
      [["a", "b"], ["1", "2"]] ["Name"] ["Extra"] "ID" rfl (by decide) (by decide)
      (Or.inl rfl)⟩

end GoogleSheetsManager
